import Mathlib

/-!
Shallow embedding of the datalogger acquisition/control coordinator
(`dataloggerTFG.ino`): filename sanitizer, session manager, command
dispatch for the two control surfaces (serial console, HTTP `/cmd`),
and the periodic logging tick of the scheduler loop.

Arduino `String` values are modelled as `List Char`; the storage,
sensor and network collaborators are modelled as oracle inputs in an
environment record, and their invocations are recorded as emitted
events.
-/

namespace Datalogger

/-- Coerce a Lean string literal to the `List Char` representation used
throughout the embedding. -/
def str (s : String) : List Char := s.data

/-! ### String helpers (Arduino `String.trim`, `toUpperCase`, `equalsIgnoreCase`) -/

/-- `isspace` characters removed by Arduino `String::trim`. -/
def isSpaceCh (c : Char) : Bool :=
  c = ' ' || c = '\t' || c = '\n' || c = Char.ofNat 11 || c = Char.ofNat 12 || c = '\r'

/-- Arduino `String::trim`: drop leading and trailing whitespace. -/
def trimChars (l : List Char) : List Char :=
  ((l.dropWhile isSpaceCh).reverse.dropWhile isSpaceCh).reverse

/-- ASCII `toupper` on one character, as Arduino `String::toUpperCase` applies. -/
def toUpperCh (c : Char) : Char :=
  if 'a' ≤ c && c ≤ 'z' then Char.ofNat (c.toNat - 32) else c

/-- ASCII `tolower` on one character. -/
def toLowerCh (c : Char) : Char :=
  if 'A' ≤ c && c ≤ 'Z' then Char.ofNat (c.toNat + 32) else c

/-- Arduino `String::equalsIgnoreCase` (ASCII case folding). -/
def eqIgnoreCase (a b : List Char) : Bool :=
  a.map toLowerCh = b.map toLowerCh

/-! ### Filename sanitizer (`nombreValidoBasico`, `to83BaseName`) -/

/-- The rejected-character set of `nombreValidoBasico`. -/
def invalidos : List Char := ['/', '\\', ':', '*', '?', '"', '<', '>', '|']

/-- `nombreValidoBasico`: reject the empty string, a leading `'.'`, and any
occurrence of a character from `invalidos`. -/
def nombreValidoBasico (nombre : List Char) : Bool :=
  match nombre with
  | [] => false
  | c :: _ =>
    if c = '.' then false
    else nombre.all (fun ch => !(invalidos.contains ch))

/-- Characters kept verbatim by `to83BaseName` (after uppercasing). -/
def keepCh (c : Char) : Bool :=
  ('A' ≤ c && c ≤ 'Z') || ('0' ≤ c && c ≤ '9')

/-- Separators `to83BaseName` maps to `'_'`. -/
def sepCh (c : Char) : Bool :=
  c = '-' || c = ' ' || c = '.'

/-- The character loop of `to83BaseName`: keep `[A-Z0-9]`, map `-`, space and
`.` to `'_'`, drop everything else, and stop once 8 output characters have
been accumulated. -/
def to83Loop : List Char → List Char → List Char
  | [], out => out
  | c :: rest, out =>
    if 8 ≤ out.length then out
    else if keepCh c then to83Loop rest (out ++ [c])
    else if sepCh c then to83Loop rest (out ++ ['_'])
    else to83Loop rest out

/-- `to83BaseName`: trim, uppercase, filter/map to at most 8 stem characters,
falling back to `"LOG"` when nothing survives. -/
def to83BaseName (inp : List Char) : List Char :=
  let t := (trimChars inp).map toUpperCh
  let out := to83Loop t []
  if out = [] then str "LOG" else out

/-- `buildCsvFilenameFromBase`: the 8.3 stem with the fixed `.CSV` extension. -/
def buildCsvFilenameFromBase (base : List Char) : List Char :=
  to83BaseName base ++ str ".CSV"

/-- The sanitizer as the session-start path composes it: the
`nombreValidoBasico` gate followed by `buildCsvFilenameFromBase`;
`none` models the `InvalidName` failure. -/
def sanitize (raw : List Char) : Option (List Char) :=
  if nombreValidoBasico raw then some (buildCsvFilenameFromBase raw) else none

/-- Characters legal in an 8.3 stem as produced here. -/
def stemCh (c : Char) : Bool := keepCh c || c = '_'

/-- Decidable check for the shape `^[A-Z0-9_]{1,8}\.CSV$`. -/
def matches83 (l : List Char) : Bool :=
  decide (5 ≤ l.length) && decide (l.length ≤ 12) &&
    (l.drop (l.length - 4) = str ".CSV") && (l.take (l.length - 4)).all stemCh

/-! ### Sample formatter (`String(value, decimals)` and the CSV line) -/

/-- Left-pad a digit list with zeros to width `d`. -/
def padZeros (d : Nat) (l : List Char) : List Char :=
  List.replicate (d - l.length) '0' ++ l

/-- Decimal digits of a natural number. -/
def natChars (n : Nat) : List Char := Nat.toDigits 10 n

/-- Arduino `String(double, decimals)` (`Print::printFloat`): print a sign for
negative values, round the magnitude half-up at the last decimal, then print
integer part, `'.'`, and exactly `d` fractional digits.  Measurement values
are modelled as rationals. -/
def fmtFixed (q : ℚ) (d : Nat) : List Char :=
  let neg := q.num < 0
  let a : Nat := q.num.natAbs
  let n : Nat := (2 * a * 10 ^ d + q.den) / (2 * q.den)
  let ip := n / 10 ^ d
  let fp := n % 10 ^ d
  (if neg then ['-'] else []) ++ natChars ip ++ ['.'] ++ padZeros d (natChars fp)

/-- Empirically fitted wiring-resistance constant `R_EQ = 0.026`. -/
def R_EQ : ℚ := 26 / 1000

/-- Calibration ratio `corrector_offset = 12.74 / 12.908`. -/
def corrector_offset : ℚ := (1274 / 100) / (12908 / 1000)

/-- `correctVoltage`: subtract the wiring voltage drop. -/
def correctVoltage (vbus currentA : ℚ) : ℚ := vbus - currentA * R_EQ

/-- The CSV header line written on session start. -/
def headerLine : List Char :=
  str "t_s,VBUS1,VSHUNT1,I1,P1,VBUS2,VSHUNT2,I2,P2,VPZ,IPZ,PPZ,EPZ,FPZ,PF_PZ"

/-- The `dataString` built by the logging tick: 15 comma-separated fields at
the source's decimal precisions (4,6,6,4,4,6,6,4,3,3,3,3,2,3). -/
def csvLine (t : Nat) (bv1 sv1 i1 p1 bv2 sv2 i2 p2 vpz ipz ppz epz fpz pfpz : ℚ) :
    List Char :=
  natChars t ++ [','] ++
  fmtFixed bv1 4 ++ [','] ++ fmtFixed sv1 6 ++ [','] ++
  fmtFixed i1 6 ++ [','] ++ fmtFixed p1 4 ++ [','] ++
  fmtFixed bv2 4 ++ [','] ++ fmtFixed sv2 6 ++ [','] ++
  fmtFixed i2 6 ++ [','] ++ fmtFixed p2 4 ++ [','] ++
  fmtFixed vpz 3 ++ [','] ++ fmtFixed ipz 3 ++ [','] ++
  fmtFixed ppz 3 ++ [','] ++ fmtFixed epz 3 ++ [','] ++
  fmtFixed fpz 2 ++ [','] ++ fmtFixed pfpz 3

/-! ### Coordinator state, environment oracles and emitted events -/

/-- Result of `iniciarSesionMedida`, distinguishing its failure branches by
the distinct diagnostics each one logs. -/
inductive StartResult where
  | ok | invalidName | alreadyActive | storageUnavailable
  deriving DecidableEq, Repr

/-- Result of `pararSesionMedida`. -/
inductive StopResult where
  | ok | notActive
  deriving DecidableEq, Repr

/-- Events emitted towards the collaborators: console-log messages, storage
writes (with the oracle's success bit), removals, reads and listings. -/
inductive Ev where
  | logM (m : List Char)
  | sdWrite (line : List Char) (ok : Bool)
  | sdRemove (name : List Char) (ok : Bool)
  | sdRead (name : List Char)
  | sdList
  deriving DecidableEq, Repr

/-- Oracle inputs for one dispatch: the wall clock, collaborator outcomes and
sensor readings. -/
structure Env where
  millisNow : Nat
  sdOpenOk : Bool
  removeOk : Bool
  writeOk : Bool
  readOpenOk : Bool
  ina1Bus : ℚ
  ina1Shunt : ℚ
  ina1Cur : ℚ
  ina1Pow : ℚ
  ina2Bus : ℚ
  ina2Shunt : ℚ
  ina2Cur : ℚ
  ina2Pow : ℚ
  pzemOk : Bool
  pzVolt : ℚ
  pzCur : ℚ
  pzPow : ℚ
  pzEner : ℚ
  pzFreq : ℚ
  pzPf : ℚ
  deriving DecidableEq, Repr

/-- The coordinator's mutable globals: `estado`, `nombreArchivo`, the open
log-file handle and the lines written to it this session, `tiempo_s`,
`lastLoop`, and the live-snapshot pair. -/
structure DLState where
  estado : Nat
  nombreArchivo : List Char
  logFileOpen : Bool
  logLines : List (List Char)
  tiempo_s : Nat
  lastLoop : Nat
  ultimaLineaCSV : List Char
  lastWebPushMs : Nat
  deriving DecidableEq, Repr

/-- The globals as initialised at declaration and in `setup()` (which sets
`lastLoop = millis()` and `tiempo_s = 0`). -/
def initState (m : Nat) : DLState :=
  { estado := 0, nombreArchivo := [], logFileOpen := false, logLines := [],
    tiempo_s := 0, lastLoop := m, ultimaLineaCSV := [], lastWebPushMs := 0 }

/-- `PERIODO_LOG_MS`. -/
def PERIODO_LOG_MS : Nat := 1000

/-- `PERIODO_WEB_MS`. -/
def PERIODO_WEB_MS : Nat := 1000

/-- Modulus `2 ^ 32` of the 32-bit `unsigned long` arithmetic on `millis()`
values. -/
def M32 : Nat := 4294967296

/-- Unsigned 32-bit subtraction `a - b`. -/
def usub (a b : Nat) : Nat := (a % M32 + M32 - b % M32) % M32

/-! ### Session manager -/

/-- `iniciarSesionMedida(baseName, origen)`: validate the name, refuse when a
session is already active, resolve the 8.3 filename, open the file (oracle
`sdOpenOk`), write the header, reset `tiempo_s`, re-arm `lastLoop` and enter
`estado = 4`. -/
def iniciarSesionMedida (env : Env) (baseName origen : List Char) (s : DLState) :
    StartResult × DLState × List Ev :=
  if nombreValidoBasico baseName = false then
    (.invalidName, s, [.logM (origen ++ str ": ERROR nombre inválido.")])
  else if s.estado = 4 && s.logFileOpen then
    (.alreadyActive, s,
      [.logM (origen ++ str ": Ya hay una sesión activa. Para antes la sesión.")])
  else
    let nombre := buildCsvFilenameFromBase baseName
    let evs := [Ev.logM (origen ++ str ": Nombre solicitado = " ++ baseName),
                Ev.logM (origen ++ str ": Nombre final (8.3) = " ++ nombre)]
    if env.sdOpenOk = false then
      (.storageUnavailable,
        { s with nombreArchivo := nombre, logFileOpen := false, estado := 0 },
        evs ++ [.logM (origen ++ str ": ERROR no se pudo crear/abrir el archivo en SD.")])
    else
      (.ok,
        { s with nombreArchivo := nombre, logFileOpen := true,
                 logLines := [headerLine], tiempo_s := 0,
                 lastLoop := env.millisNow % M32, estado := 4 },
        evs ++ [.sdWrite headerLine env.writeOk,
                .logM (origen ++ str ": Sesión iniciada. Escriba 'back' o use STOP en la web.")])

/-- `pararSesionMedida(origen)`: close the handle and return to the menu when
`estado = 4`; otherwise report that no session is active. -/
def pararSesionMedida (origen : List Char) (s : DLState) :
    StopResult × DLState × List Ev :=
  if s.estado = 4 then
    (.ok, { s with logFileOpen := false, estado := 0 },
      [.logM (origen ++ str ": Deteniendo sesión de medida...")])
  else
    (.notActive, s, [.logM (origen ++ str ": No hay sesión activa.")])

/-! ### Command dispatch: HTTP surface (`processWebCommand`) -/

/-- `processWebCommand(op, name)`: the three session-affecting HTTP verbs.
`delete` trims the name, silently ignores an empty one, refuses the active
session's file, and otherwise invokes `SD.remove`. -/
def processWebCommand (env : Env) (op name : List Char) (s : DLState) :
    DLState × List Ev :=
  if op = str "start" then
    (iniciarSesionMedida env name (str "WEB") s).2
  else if op = str "stop" then
    let r := pararSesionMedida (str "WEB") s
    (r.2.1, r.2.2)
  else if op = str "delete" then
    let fname := trimChars name
    if fname = [] then (s, [])
    else if s.estado = 4 && decide (s.nombreArchivo.length > 0) &&
            eqIgnoreCase fname s.nombreArchivo then
      (s, [.logM (str "WEB: No se puede borrar el archivo en uso (" ++
                  s.nombreArchivo ++ str "). Para la sesión primero.")])
    else
      (s, [.logM (str "WEB: Borrando " ++ fname),
           .sdRemove fname env.removeOk,
           .logM (if env.removeOk then str "WEB: Borrado OK"
                  else str "WEB: Error al borrar")])
  else
    (s, [.logM (str "WEB: Comando desconocido: " ++ op)])

/-! ### Command dispatch: console surface (the `Serial` section of `loop`) -/

/-- One console line dispatched against `estado` exactly as in `loop()`:
menu commands, the start-name prompt, the read-file prompt, the delete
prompt (whose in-use check reads `logFile`, not `estado`), and the
active-session mode. -/
def consoleStep (env : Env) (raw : List Char) (s : DLState) : DLState × List Ev :=
  let entrada := trimChars raw
  if s.estado = 0 then
    if entrada = str "a" then
      ({ s with estado := 1 },
       [.logM (str "Elige un nombre base para el archivo (se añadirá .CSV). Ej: 11-12-2025")])
    else if entrada = str "b" then
      ({ s with estado := 2 },
       [.logM (str "Escribe el nombre del archivo que quieres volcar por Serial (incluye .CSV):"),
        .sdList])
    else if entrada = str "c" then
      ({ s with estado := 3 },
       [.logM (str "Escribe el nombre del archivo que quieres borrar (incluye .CSV):")])
    else
      (s, [.logM (str "FALLO: comando no reconocido.")])
  else if s.estado = 1 then
    if entrada = str "back" then ({ s with estado := 0 }, [])
    else
      let r := iniciarSesionMedida env entrada (str "SERIAL") s
      if r.1 = .ok then (r.2.1, r.2.2)
      else ({ r.2.1 with estado := 0 }, r.2.2)
  else if s.estado = 2 then
    if entrada = str "back" then ({ s with estado := 0 }, [])
    else
      (s, (if env.readOpenOk then
             [Ev.logM (str "----- INICIO DEL ARCHIVO -----"),
              Ev.sdRead entrada,
              Ev.logM (str "----- FIN DEL ARCHIVO -----")]
           else
             [Ev.logM (str "ERROR: no se pudo abrir el archivo para lectura.")]) ++
          [Ev.logM (str "Escribe 'back' para volver al menú o el nombre de otro archivo para leerlo.")])
  else if s.estado = 3 then
    if entrada = str "back" then ({ s with estado := 0 }, [])
    else
      let evs :=
        if s.logFileOpen && decide (s.nombreArchivo.length > 0) &&
           eqIgnoreCase entrada s.nombreArchivo then
          [Ev.logM (str "ERROR: No puedes borrar el archivo en uso. Para la sesión primero.")]
        else
          [Ev.sdRemove entrada env.removeOk,
           Ev.logM (if env.removeOk then str "Archivo borrado: " ++ entrada
                    else str "ERROR: no se pudo borrar el archivo: " ++ entrada)]
      (s, evs ++
        [Ev.logM (str "Escribe 'back' para volver al menú o el nombre de otro archivo para borrar.")])
  else if s.estado = 4 then
    if entrada = str "back" then
      let r := pararSesionMedida (str "SERIAL") s
      (r.2.1, r.2.2)
    else
      (s, [.logM (str "Sesión activa. Escriba 'back' para detener.")])
  else (s, [])

/-! ### Periodic logging tick (section 3 of `loop`) -/

/-- The guarded sampling tick: only in `estado = 4` with an open handle, only
when a full period has elapsed since `lastLoop`; advances `lastLoop` by
exactly one period, increments `tiempo_s`, substitutes `-1` for all six
energy-meter fields when the read fails, and appends the formatted record. -/
def loggingStep (env : Env) (s : DLState) : DLState × List Ev :=
  if s.estado = 4 && s.logFileOpen then
    let ahora := env.millisNow % M32
    if PERIODO_LOG_MS ≤ usub ahora s.lastLoop then
      let lastLoop' := (s.lastLoop + PERIODO_LOG_MS) % M32
      let t' := s.tiempo_s + 1
      let bv1 := correctVoltage (env.ina1Bus * 4) env.ina1Cur
      let p1 := env.ina1Pow * 4
      let bv2 := correctVoltage env.ina2Bus env.ina2Cur * corrector_offset
      let vpz := if env.pzemOk then env.pzVolt else -1
      let ipz := if env.pzemOk then env.pzCur else -1
      let ppz := if env.pzemOk then env.pzPow else -1
      let epz := if env.pzemOk then env.pzEner else -1
      let fpz := if env.pzemOk then env.pzFreq else -1
      let pfpz := if env.pzemOk then env.pzPf else -1
      let line := csvLine t' bv1 env.ina1Shunt env.ina1Cur p1
                    bv2 env.ina2Shunt env.ina2Cur env.ina2Pow
                    vpz ipz ppz epz fpz pfpz
      let web := PERIODO_WEB_MS ≤ usub ahora s.lastWebPushMs
      let ultima :=
        natChars t' ++ [','] ++ fmtFixed bv1 3 ++ [','] ++
        fmtFixed env.ina1Cur 3 ++ [','] ++ fmtFixed p1 2 ++ [','] ++
        fmtFixed bv2 3 ++ [','] ++ fmtFixed env.ina2Cur 3 ++ [','] ++
        fmtFixed env.ina2Pow 2 ++ [','] ++ fmtFixed ipz 3 ++ [','] ++
        fmtFixed ppz 2
      ({ s with lastLoop := lastLoop', tiempo_s := t',
                logLines := s.logLines ++ [line],
                ultimaLineaCSV := if web then ultima else s.ultimaLineaCSV,
                lastWebPushMs := if web then ahora else s.lastWebPushMs },
       [.sdWrite line env.writeOk])
    else (s, [])
  else (s, [])

/-- One iteration of the scheduler loop restricted to the coordinator state:
an optional `/cmd` HTTP request, an optional console line, then the logging
tick.  The remaining HTTP routes (`/`, `/log`, `/last`, `/download`, 404)
only read state. -/
def loopStep (env : Env) (webCmd : Option (List Char × List Char))
    (serialLine : Option (List Char)) (s : DLState) : DLState × List Ev :=
  let r1 := match webCmd with
    | some (op, name) => processWebCommand env op name s
    | none => (s, [])
  let r2 := match serialLine with
    | some line => consoleStep env line r1.1
    | none => (r1.1, [])
  let r3 := loggingStep env r2.1
  (r3.1, r1.2 ++ r2.2 ++ r3.2)

/-- The hard invariant of claim C2: `estado = 4` iff the log handle is open. -/
def modeSessionInv (s : DLState) : Prop :=
  s.estado = 4 ↔ s.logFileOpen = true

/-- No `SD.remove` invocation appears among the emitted events. -/
def noRemove (evs : List Ev) : Prop :=
  ∀ n ok, Ev.sdRemove n ok ∉ evs

/-- The first nine fields of the tick's record (`t_s` and the two INA
channels), formatted exactly as the source does. -/
def inaFields (env : Env) (s : DLState) : List Char :=
  natChars (s.tiempo_s + 1) ++ [','] ++
  fmtFixed (correctVoltage (env.ina1Bus * 4) env.ina1Cur) 4 ++ [','] ++
  fmtFixed env.ina1Shunt 6 ++ [','] ++
  fmtFixed env.ina1Cur 6 ++ [','] ++
  fmtFixed (env.ina1Pow * 4) 4 ++ [','] ++
  fmtFixed (correctVoltage env.ina2Bus env.ina2Cur * corrector_offset) 4 ++ [','] ++
  fmtFixed env.ina2Shunt 6 ++ [','] ++
  fmtFixed env.ina2Cur 6 ++ [','] ++
  fmtFixed env.ina2Pow 4

/-- The six energy-meter fields of the record when the read failed: the `-1`
sentinel at the configured precisions 3, 3, 3, 3, 2, 3. -/
def pzFailFields : List Char :=
  [','] ++ fmtFixed (-1) 3 ++ [','] ++ fmtFixed (-1) 3 ++ [','] ++
  fmtFixed (-1) 3 ++ [','] ++ fmtFixed (-1) 3 ++ [','] ++
  fmtFixed (-1) 2 ++ [','] ++ fmtFixed (-1) 3

/-! ### Concrete fixtures used by witnesses and counterexamples -/

/-- A benign environment: all collaborators succeed, all readings zero. -/
def envA : Env :=
  { millisNow := 0, sdOpenOk := true, removeOk := true, writeOk := true,
    readOpenOk := true,
    ina1Bus := 0, ina1Shunt := 0, ina1Cur := 0, ina1Pow := 0,
    ina2Bus := 0, ina2Shunt := 0, ina2Cur := 0, ina2Pow := 0,
    pzemOk := true, pzVolt := 0, pzCur := 0, pzPow := 0, pzEner := 0,
    pzFreq := 0, pzPf := 0 }

/-- Environment in which the SD write fails, 1.5 periods after `lastLoop = 0`. -/
def envW : Env := { envA with millisNow := 1500, writeOk := false }

/-- Environment in which the energy-meter read fails. -/
def envP : Env := { envA with millisNow := 1500, pzemOk := false }

/-- Environment observed 2.5 periods after `lastLoop = 0` (a late iteration). -/
def envL : Env := { envA with millisNow := 2500 }

/-- Environment in which `SD.open` fails. -/
def envS : Env := { envA with sdOpenOk := false }

/-- A state with an active session on `A.CSV` and five samples taken. -/
def sActive : DLState :=
  { estado := 4, nombreArchivo := str "A.CSV", logFileOpen := true,
    logLines := [headerLine], tiempo_s := 5, lastLoop := 0,
    ultimaLineaCSV := [], lastWebPushMs := 0 }

/-- An idle state in which the console sits in delete mode (`estado = 3`). -/
def sDelMode : DLState := { initState 0 with estado := 3 }

/-! ### Lemmas about the sanitizer -/

lemma to83Loop_length_le (l : List Char) (out : List Char) (h : out.length ≤ 8) :
    (to83Loop l out).length ≤ 8 := by
  induction l generalizing out with
  | nil => simpa [to83Loop] using h
  | cons c rest ih =>
    simp only [to83Loop]
    split
    · exact h
    · next h8 =>
      split
      · exact ih _ (by simp; omega)
      · split
        · exact ih _ (by simp; omega)
        · exact ih _ h

lemma to83Loop_all_stem (l : List Char) (out : List Char) (h : out.all stemCh = true) :
    (to83Loop l out).all stemCh = true := by
  induction l generalizing out with
  | nil => simpa [to83Loop] using h
  | cons c rest ih =>
    simp only [to83Loop]
    split
    · exact h
    · split
      · next hk =>
        refine ih _ ?_
        simp only [List.all_append, h, Bool.true_and, List.all_cons, List.all_nil,
          Bool.and_true]
        simp [stemCh, hk]
      · split
        · refine ih _ ?_
          simp only [List.all_append, h, Bool.true_and, List.all_cons, List.all_nil,
            Bool.and_true]
          decide
        · exact ih _ h

lemma to83BaseName_length (l : List Char) :
    1 ≤ (to83BaseName l).length ∧ (to83BaseName l).length ≤ 8 := by
  simp only [to83BaseName]
  split
  · decide
  · next hne =>
    refine ⟨?_, to83Loop_length_le _ _ (by simp)⟩
    cases hout : to83Loop (List.map toUpperCh (trimChars l)) [] with
    | nil => exact absurd hout hne
    | cons a as => simp [hout]

lemma to83BaseName_all_stem (l : List Char) :
    (to83BaseName l).all stemCh = true := by
  simp only [to83BaseName]
  split
  · decide
  · exact to83Loop_all_stem _ _ (by decide)

/-- Every produced filename has the shape `^[A-Z0-9_]{1,8}\.CSV$`. -/
lemma matches83_build (l : List Char) :
    matches83 (buildCsvFilenameFromBase l) = true := by
  have hlen := to83BaseName_length l
  have hall := to83BaseName_all_stem l
  unfold buildCsvFilenameFromBase matches83
  have hL : (to83BaseName l ++ str ".CSV").length = (to83BaseName l).length + 4 := by
    simp [str]
  rw [hL]
  have hd : (to83BaseName l).length + 4 - 4 = (to83BaseName l).length := by omega
  rw [hd]
  have hdrop : (to83BaseName l ++ str ".CSV").drop (to83BaseName l).length = str ".CSV" :=
    List.drop_left _ _
  have htake : (to83BaseName l ++ str ".CSV").take (to83BaseName l).length = to83BaseName l :=
    List.take_left _ _
  rw [hdrop, htake]
  simp only [Bool.and_eq_true, decide_eq_true_eq]
  refine ⟨⟨⟨by omega, by omega⟩, by simp⟩, hall⟩

/-- The `nombreValidoBasico` gate fails exactly on the empty label, a leading
dot, or an occurrence of a rejected character. -/
lemma valido_eq_false_iff (l : List Char) :
    nombreValidoBasico l = false ↔
      (l = [] ∨ l.head? = some '.' ∨ ∃ c ∈ l, c ∈ invalidos) := by
  cases l with
  | nil => simp [nombreValidoBasico]
  | cons c rest =>
    simp only [nombreValidoBasico, List.head?_cons, Option.some.injEq]
    by_cases hc : c = '.'
    · simp [hc]
    · simp only [if_neg hc]
      rw [List.all_eq_false]
      simp [hc]

/-! ### Preservation of the mode/session invariant (claim C2) -/

lemma inv_iniciar (env : Env) (b o : List Char) (s : DLState)
    (h : modeSessionInv s) : modeSessionInv (iniciarSesionMedida env b o s).2.1 := by
  simp only [iniciarSesionMedida]
  split
  · exact h
  · split
    · exact h
    · split
      · simp [modeSessionInv]
      · simp [modeSessionInv]

lemma open_eq_false_of (s : DLState) (h : modeSessionInv s) (hs : s.estado ≠ 4) :
    s.logFileOpen = false := by
  rcases Bool.eq_false_or_eq_true s.logFileOpen with hb | hb
  · exact absurd (h.mpr hb) hs
  · exact hb

lemma iniciar_not_ok_open (env : Env) (b o : List Char) (s : DLState)
    (hs : s.estado ≠ 4) (hopen : s.logFileOpen = false)
    (hr : (iniciarSesionMedida env b o s).1 ≠ .ok) :
    (iniciarSesionMedida env b o s).2.1.logFileOpen = false := by
  by_cases hv : nombreValidoBasico b = false
  · simp [iniciarSesionMedida, hv, hopen]
  · have hact : (decide (s.estado = 4) && s.logFileOpen) = false := by
      simp [hs]
    by_cases hsd : env.sdOpenOk = false
    · simp [iniciarSesionMedida, hv, hact, hsd]
    · exact absurd (by simp [iniciarSesionMedida, hv, hact, hsd]) hr

lemma inv_parar (o : List Char) (s : DLState)
    (h : modeSessionInv s) : modeSessionInv (pararSesionMedida o s).2.1 := by
  simp only [pararSesionMedida]
  split
  · simp [modeSessionInv]
  · exact h

lemma inv_web (env : Env) (op name : List Char) (s : DLState)
    (h : modeSessionInv s) : modeSessionInv (processWebCommand env op name s).1 := by
  simp only [processWebCommand]
  split
  · exact inv_iniciar env name (str "WEB") s h
  · split
    · exact inv_parar (str "WEB") s h
    · split
      · split
        · exact h
        · split
          · exact h
          · exact h
      · exact h

lemma inv_console (env : Env) (raw : List Char) (s : DLState)
    (h : modeSessionInv s) : modeSessionInv (consoleStep env raw s).1 := by
  simp only [consoleStep]
  by_cases h0 : s.estado = 0
  · have hop : s.logFileOpen = false := open_eq_false_of s h (by omega)
    simp only [if_pos h0]
    split
    · simp [modeSessionInv, hop]
    · split
      · simp [modeSessionInv, hop]
      · split
        · simp [modeSessionInv, hop]
        · exact h
  · simp only [if_neg h0]
    by_cases h1 : s.estado = 1
    · have hop : s.logFileOpen = false := open_eq_false_of s h (by omega)
      simp only [if_pos h1]
      split
      · simp [modeSessionInv, hop]
      · split
        · exact inv_iniciar env _ (str "SERIAL") s h
        · next hnok =>
          have hof := iniciar_not_ok_open env (trimChars raw) (str "SERIAL") s
            (by omega) hop hnok
          simp [modeSessionInv, hof]
    · simp only [if_neg h1]
      by_cases h2 : s.estado = 2
      · simp only [if_pos h2]
        split
        · have hop : s.logFileOpen = false := open_eq_false_of s h (by omega)
          simp [modeSessionInv, hop]
        · exact h
      · simp only [if_neg h2]
        by_cases h3 : s.estado = 3
        · simp only [if_pos h3]
          split
          · have hop : s.logFileOpen = false := open_eq_false_of s h (by omega)
            simp [modeSessionInv, hop]
          · exact h
        · simp only [if_neg h3]
          by_cases h4 : s.estado = 4
          · simp only [if_pos h4]
            split
            · exact inv_parar (str "SERIAL") s h
            · exact h
          · simp only [if_neg h4]
            exact h

lemma inv_logging (env : Env) (s : DLState)
    (h : modeSessionInv s) : modeSessionInv (loggingStep env s).1 := by
  simp only [loggingStep]
  split
  · split
    · next hact _ =>
      simp only [Bool.and_eq_true, decide_eq_true_eq] at hact
      simp [modeSessionInv, hact.1, hact.2]
    · exact h
  · exact h

end Datalogger

namespace Datalogger

/-! ### Claim theorems -/

/-- Claim C1, counterexample: with a session active, `start` on the raw label
`"/"` fails `InvalidName` (the validity check runs first), not
`AlreadyActive` as the claim states. -/
theorem claim_C1_counterexample :
    (iniciarSesionMedida envA (str "/") (str "WEB") sActive).1 = StartResult.invalidName ∧
    StartResult.invalidName ≠ StartResult.alreadyActive ∧
    sActive.estado = 4 ∧ sActive.logFileOpen = true := by
  decide

/-- Claim C1 (amended): with a session active, `start` with any raw label
fails and leaves the state (filename, counter, handle, mode) unchanged; the
failure is `AlreadyActive` when the label passes basic validation and
`InvalidName` otherwise. -/
theorem claim_C1_start_already_active (env : Env) (label origen : List Char)
    (s : DLState) (h4 : s.estado = 4) (ho : s.logFileOpen = true) :
    (iniciarSesionMedida env label origen s).2.1 = s ∧
    (nombreValidoBasico label = true →
      (iniciarSesionMedida env label origen s).1 = StartResult.alreadyActive) ∧
    (nombreValidoBasico label = false →
      (iniciarSesionMedida env label origen s).1 = StartResult.invalidName) := by
  have hact : (decide (s.estado = 4) && s.logFileOpen) = true := by
    simp [h4, ho]
  by_cases hv : nombreValidoBasico label = false
  · simp [iniciarSesionMedida, hv]
  · simp [iniciarSesionMedida, hv, hact]

/-- Witness for C1 at a concrete active state and valid label. -/
theorem claim_C1_witness :
    (iniciarSesionMedida envA (str "B") (str "WEB") sActive).1 = StartResult.alreadyActive :=
  (claim_C1_start_already_active envA (str "B") (str "WEB") sActive rfl rfl).2.1 (by decide)

/-- Claim C2: the invariant `estado = 4 ↔ logFile open` holds in the initial
state and is preserved by every scheduler-loop iteration (HTTP `/cmd`
dispatch, then console dispatch, then the sampling tick). -/
theorem claim_C2_mode_session_invariant :
    (∀ m, modeSessionInv (initState m)) ∧
    ∀ env webCmd serialLine s, modeSessionInv s →
      modeSessionInv (loopStep env webCmd serialLine s).1 := by
  constructor
  · intro m
    simp [modeSessionInv, initState]
  · intro env webCmd serialLine s h
    simp only [loopStep]
    apply inv_logging
    have h1 : modeSessionInv (match webCmd with
        | some (op, name) => processWebCommand env op name s
        | none => (s, [])).1 := by
      cases webCmd with
      | none => exact h
      | some p =>
        obtain ⟨op, name⟩ := p
        exact inv_web env op name s h
    cases serialLine with
    | none => exact h1
    | some line => exact inv_console env line _ h1

/-- Witness for C2 at a concrete active state and idle loop iteration. -/
theorem claim_C2_witness :
    modeSessionInv (loopStep envA none none sActive).1 :=
  claim_C2_mode_session_invariant.2 envA none none sActive (by simp [modeSessionInv, sActive])

/-- Claim C5, counterexample: sanitizing `""` and `"..."` both fail (the
validity gate rejects the empty label and a leading dot); neither yields
`LOG.CSV` as the claim states. -/
theorem claim_C5_counterexample :
    sanitize (str "") = none ∧ sanitize (str "...") = none := by
  decide

/-- Claim C5 (amended): `sanitize("")` and `sanitize("...")` both fail
`InvalidName`; bypassing the validity gate, the 8.3 conversion maps `""` to
the fallback `LOG.CSV` but maps `"..."` to `___.CSV` (dots become
underscores). -/
theorem claim_C5_empty_and_dots :
    sanitize (str "") = none ∧ sanitize (str "...") = none ∧
    buildCsvFilenameFromBase (str "") = str "LOG.CSV" ∧
    buildCsvFilenameFromBase (str "...") = str "___.CSV" := by
  decide

/-- Claim C9: stopping with no active session reports `NotActive`, changes no
state, and is idempotent — the second call returns the identical result and
report. -/
theorem claim_C9_stop_idempotent (origen : List Char) (s : DLState)
    (h : s.estado ≠ 4) :
    pararSesionMedida origen s =
      (StopResult.notActive, s, [Ev.logM (origen ++ str ": No hay sesión activa.")]) ∧
    pararSesionMedida origen (pararSesionMedida origen s).2.1 =
      (StopResult.notActive, s, [Ev.logM (origen ++ str ": No hay sesión activa.")]) := by
  constructor
  · simp [pararSesionMedida, h]
  · simp [pararSesionMedida, h]

/-- Witness for C9 from the initial (menu) state. -/
theorem claim_C9_witness :
    pararSesionMedida (str "WEB") (initState 0) =
      (StopResult.notActive, initState 0,
        [Ev.logM (str "WEB" ++ str ": No hay sesión activa.")]) :=
  (claim_C9_stop_idempotent (str "WEB") (initState 0) (by decide)).1

/-- Claim C10: a `start` that fails `StorageUnavailable` forces `estado = 0`
from any prior mode (also via the HTTP surface), while `InvalidName` and
`AlreadyActive` failures leave `estado` unchanged. -/
theorem claim_C10_start_failure_mode (env : Env) (b o : List Char) (s : DLState) :
    ((iniciarSesionMedida env b o s).1 = StartResult.storageUnavailable →
      (iniciarSesionMedida env b o s).2.1.estado = 0) ∧
    ((iniciarSesionMedida env b o s).1 = StartResult.invalidName ∨
        (iniciarSesionMedida env b o s).1 = StartResult.alreadyActive →
      (iniciarSesionMedida env b o s).2.1.estado = s.estado) ∧
    (env.sdOpenOk = false → nombreValidoBasico b = true →
      ¬(s.estado = 4 ∧ s.logFileOpen = true) →
      (processWebCommand env (str "start") b s).1.estado = 0) := by
  by_cases hv : nombreValidoBasico b = false
  · refine ⟨?_, ?_, ?_⟩
    · intro hr
      simp [iniciarSesionMedida, hv] at hr
    · intro _
      simp [iniciarSesionMedida, hv]
    · intro _ hvt _
      simp [hvt] at hv
  · by_cases hact : (decide (s.estado = 4) && s.logFileOpen) = true
    · refine ⟨?_, ?_, ?_⟩
      · intro hr
        simp [iniciarSesionMedida, hv, hact] at hr
      · intro _
        simp [iniciarSesionMedida, hv, hact]
      · intro _ _ hcon
        simp only [Bool.and_eq_true, decide_eq_true_eq] at hact
        exact absurd ⟨hact.1, hact.2⟩ hcon
    · by_cases hsd : env.sdOpenOk = false
      · refine ⟨?_, ?_, ?_⟩
        · intro _
          simp [iniciarSesionMedida, hv, hact, hsd]
        · intro hr
          simp [iniciarSesionMedida, hv, hact, hsd] at hr
        · intro _ _ _
          simp [processWebCommand, iniciarSesionMedida, hv, hact, hsd]
      · refine ⟨?_, ?_, ?_⟩
        · intro hr
          simp [iniciarSesionMedida, hv, hact, hsd] at hr
        · intro hr
          simp [iniciarSesionMedida, hv, hact, hsd] at hr
        · intro hsd2 _ _
          exact absurd hsd2 hsd

/-- Witness for C10: an HTTP start with a failing SD while the console sits
in delete mode lands in the menu. -/
theorem claim_C10_witness :
    (processWebCommand envS (str "start") (str "X") sDelMode).1.estado = 0 :=
  (claim_C10_start_failure_mode envS (str "X") (str "WEB") sDelMode).2.2 rfl (by decide)
    (by decide)

/-- Claim C4, counterexample: the all-whitespace label `" "` has empty
trimmed form, yet sanitization succeeds with `LOG.CSV` (the validity check
tests the untrimmed length), contradicting the claimed `InvalidName`
failure. -/
theorem claim_C4_counterexample :
    trimChars (str " ") = [] ∧ sanitize (str " ") = some (str "LOG.CSV") := by
  decide

/-- Claim C4 (amended): sanitization fails exactly on labels that are empty
(untrimmed), start with `'.'`, or contain a rejected character; every other
label produces a filename matching `^[A-Z0-9_]{1,8}\.CSV$`. -/
theorem claim_C4_sanitize_shape (l : List Char) :
    (sanitize l = none ↔
      (l = [] ∨ l.head? = some '.' ∨ ∃ c ∈ l, c ∈ invalidos)) ∧
    (∀ r, sanitize l = some r → matches83 r = true) := by
  constructor
  · by_cases hv : nombreValidoBasico l = false
    · simp only [sanitize, hv, Bool.false_eq_true, if_false]
      simpa using (valido_eq_false_iff l).mp hv
    · have hvt : nombreValidoBasico l = true := by simpa using hv
      simp only [sanitize, hvt, if_true]
      constructor
      · intro hc
        exact absurd hc (by simp)
      · intro hr
        exact absurd ((valido_eq_false_iff l).mpr hr) hv
  · intro r hr
    by_cases hv : nombreValidoBasico l = false
    · simp [sanitize, hv] at hr
    · have hvt : nombreValidoBasico l = true := by simpa using hv
      simp only [sanitize, hvt, if_true, Option.some.injEq] at hr
      rw [← hr]
      exact matches83_build l

/-- Witness for C4 at the concrete label `"ab"`. -/
theorem claim_C4_witness : matches83 (str "AB.CSV") = true :=
  (claim_C4_sanitize_shape (str "ab")).2 (str "AB.CSV") (by decide)

/-- Claim C3: whenever the sampling tick fires, the schedule baseline
advances by exactly one period from the previous scheduled time (never to
"now"), and a check at which two or more periods have elapsed still fires
exactly once (one appended line, one write event). -/
theorem claim_C3_tick_timing (env : Env) (s : DLState)
    (h4 : s.estado = 4) (ho : s.logFileOpen = true)
    (hfire : PERIODO_LOG_MS ≤ usub (env.millisNow % M32) s.lastLoop) :
    (loggingStep env s).1.lastLoop = (s.lastLoop + PERIODO_LOG_MS) % M32 ∧
    (loggingStep env s).1.logLines.length = s.logLines.length + 1 ∧
    (loggingStep env s).2.length = 1 ∧
    (2 * PERIODO_LOG_MS ≤ usub (env.millisNow % M32) s.lastLoop → s.lastLoop < M32 →
      (loggingStep env s).1.lastLoop ≠ env.millisNow % M32) := by
  have hact : (decide (s.estado = 4) && s.logFileOpen) = true := by
    simp [h4, ho]
  simp only [loggingStep, hact, if_true, if_pos hfire]
  refine ⟨by simp, by simp, by simp, ?_⟩
  intro hlate hlt heq
  have hueq : usub (env.millisNow % M32) s.lastLoop = PERIODO_LOG_MS := by
    rw [← heq]
    simp only [usub, M32, PERIODO_LOG_MS] at *
    omega
  rw [hueq] at hlate
  simp [PERIODO_LOG_MS] at hlate

/-- Witness for C3 at a late iteration (2.5 periods elapsed). -/
theorem claim_C3_witness :
    (loggingStep envL sActive).1.lastLoop = (sActive.lastLoop + PERIODO_LOG_MS) % M32 :=
  (claim_C3_tick_timing envL sActive rfl rfl (by decide)).1

/-- Claim C6, counterexample: with a failing SD write (`writeOk = false`) the
fired tick still increments `tiempo_s`, contradicting "incremented only when
the record append succeeds". -/
theorem claim_C6_counterexample :
    envW.writeOk = false ∧
    (loggingStep envW sActive).1.tiempo_s = sActive.tiempo_s + 1 ∧
    (loggingStep envW sActive).2.length = 1 := by
  refine ⟨rfl, by decide, by decide⟩

/-- Claim C6 (amended): `tiempo_s` is reset to zero exactly by a successful
start, is never decremented, and is incremented by exactly one per fired
sampling tick — unconditionally, even when the record append fails. -/
theorem claim_C6_sample_counter :
    (∀ env b o s,
      ((iniciarSesionMedida env b o s).1 = StartResult.ok →
        (iniciarSesionMedida env b o s).2.1.tiempo_s = 0) ∧
      ((iniciarSesionMedida env b o s).1 ≠ StartResult.ok →
        (iniciarSesionMedida env b o s).2.1.tiempo_s = s.tiempo_s)) ∧
    (∀ o s, (pararSesionMedida o s).2.1.tiempo_s = s.tiempo_s) ∧
    (∀ env s,
      ((loggingStep env s).1.tiempo_s = s.tiempo_s + 1 ∨
        (loggingStep env s).1.tiempo_s = s.tiempo_s) ∧
      ((loggingStep env s).2 ≠ [] →
        (loggingStep env s).1.tiempo_s = s.tiempo_s + 1)) := by
  refine ⟨?_, ?_, ?_⟩
  · intro env b o s
    by_cases hv : nombreValidoBasico b = false
    · simp [iniciarSesionMedida, hv]
    · by_cases hact : (decide (s.estado = 4) && s.logFileOpen) = true
      · simp [iniciarSesionMedida, hv, hact]
      · by_cases hsd : env.sdOpenOk = false
        · simp [iniciarSesionMedida, hv, hact, hsd]
        · simp [iniciarSesionMedida, hv, hact, hsd]
  · intro o s
    simp only [pararSesionMedida]
    split
    · rfl
    · rfl
  · intro env s
    by_cases hact : (decide (s.estado = 4) && s.logFileOpen) = true
    · by_cases hfire : PERIODO_LOG_MS ≤ usub (env.millisNow % M32) s.lastLoop
      · simp [loggingStep, hact, hfire]
      · simp [loggingStep, hact, hfire]
    · simp [loggingStep, hact]

/-- Witness for C6: the fired tick with a failing write increments the
counter. -/
theorem claim_C6_witness :
    (loggingStep envW sActive).1.tiempo_s = sActive.tiempo_s + 1 :=
  (claim_C6_sample_counter.2.2 envW sActive).2 (by decide)

/-- Claim C7: when the energy-meter read fails during a fired tick, the
record is still produced and written — its nine leading fields are the
formatted measured sensor values and its six energy-meter fields are the
`-1` sentinel rendered at precisions 3, 3, 3, 3, 2, 3. -/
theorem claim_C7_pzem_sentinel (env : Env) (s : DLState)
    (h4 : s.estado = 4) (ho : s.logFileOpen = true)
    (hfire : PERIODO_LOG_MS ≤ usub (env.millisNow % M32) s.lastLoop)
    (hpz : env.pzemOk = false) :
    (loggingStep env s).2 =
      [Ev.sdWrite (inaFields env s ++ pzFailFields) env.writeOk] ∧
    (loggingStep env s).1.logLines = s.logLines ++ [inaFields env s ++ pzFailFields] ∧
    pzFailFields = str ",-1.000,-1.000,-1.000,-1.000,-1.00,-1.000" := by
  have hact : (decide (s.estado = 4) && s.logFileOpen) = true := by
    simp [h4, ho]
  have hline : csvLine (s.tiempo_s + 1)
      (correctVoltage (env.ina1Bus * 4) env.ina1Cur) env.ina1Shunt env.ina1Cur
      (env.ina1Pow * 4)
      (correctVoltage env.ina2Bus env.ina2Cur * corrector_offset) env.ina2Shunt
      env.ina2Cur env.ina2Pow (-1) (-1) (-1) (-1) (-1) (-1) =
      inaFields env s ++ pzFailFields := by
    simp [csvLine, inaFields, pzFailFields]
  refine ⟨?_, ?_, by decide⟩
  · simp only [loggingStep, hact, if_true, if_pos hfire, hpz, Bool.false_eq_true,
      if_false]
    rw [hline]
  · simp only [loggingStep, hact, if_true, if_pos hfire, hpz, Bool.false_eq_true,
      if_false]
    rw [hline]

/-- Witness for C7 at a concrete active state with a failed meter read. -/
theorem claim_C7_witness :
    (loggingStep envP sActive).2 =
      [Ev.sdWrite (inaFields envP sActive ++ pzFailFields) envP.writeOk] :=
  (claim_C7_pzem_sentinel envP sActive rfl rfl (by decide) rfl).1

/-- Claim C8, counterexample: from an active session, an HTTP delete whose
name is empty silently does nothing — no remove is invoked even though the
(empty) target differs from the active filename, contradicting "any other
name invokes the storage remove operation". -/
theorem claim_C8_counterexample :
    sActive.estado = 4 ∧ sActive.nombreArchivo = str "A.CSV" ∧
    processWebCommand envA (str "delete") (str "") sActive = (sActive, []) := by
  decide

/-- Claim C8 (amended): on both surfaces a deletion whose trimmed nonempty
target equals the active session filename (case-insensitively) is refused
with no removal and no state change; any other nonempty trimmed target gets
`SD.remove` invoked on it; an empty or whitespace target is ignored on the
HTTP surface. -/
theorem claim_C8_delete_busy (env : Env) (name raw : List Char) (s : DLState) :
    (trimChars name ≠ [] → s.estado = 4 → s.nombreArchivo ≠ [] →
      eqIgnoreCase (trimChars name) s.nombreArchivo = true →
      (processWebCommand env (str "delete") name s).1 = s ∧
      noRemove (processWebCommand env (str "delete") name s).2) ∧
    (trimChars name ≠ [] →
      ¬(s.estado = 4 ∧ s.nombreArchivo ≠ [] ∧
        eqIgnoreCase (trimChars name) s.nombreArchivo = true) →
      (processWebCommand env (str "delete") name s).1 = s ∧
      Ev.sdRemove (trimChars name) env.removeOk ∈
        (processWebCommand env (str "delete") name s).2) ∧
    (s.estado = 3 → trimChars raw ≠ str "back" → s.logFileOpen = true →
      s.nombreArchivo ≠ [] → eqIgnoreCase (trimChars raw) s.nombreArchivo = true →
      (consoleStep env raw s).1 = s ∧ noRemove (consoleStep env raw s).2) ∧
    (s.estado = 3 → trimChars raw ≠ str "back" →
      ¬(s.logFileOpen = true ∧ s.nombreArchivo ≠ [] ∧
        eqIgnoreCase (trimChars raw) s.nombreArchivo = true) →
      (consoleStep env raw s).1 = s ∧
      Ev.sdRemove (trimChars raw) env.removeOk ∈ (consoleStep env raw s).2) := by
  have hd1 : ¬ (str "delete" = str "start") := by decide
  have hd2 : ¬ (str "delete" = str "stop") := by decide
  refine ⟨?_, ?_, ?_, ?_⟩
  · intro hne h4 hnom heq
    have hpos : 0 < s.nombreArchivo.length := List.length_pos.mpr hnom
    have hcond : (decide (s.estado = 4) && decide (s.nombreArchivo.length > 0) &&
        eqIgnoreCase (trimChars name) s.nombreArchivo) = true := by
      simp [h4, hpos, heq]
    simp only [processWebCommand, if_neg hd1, if_neg hd2, if_pos rfl, if_neg hne,
      hcond, if_true]
    refine ⟨by trivial, ?_⟩
    intro n ok hmem
    simp at hmem
  · intro hne hcon
    have hcond : (decide (s.estado = 4) && decide (s.nombreArchivo.length > 0) &&
        eqIgnoreCase (trimChars name) s.nombreArchivo) = false := by
      rcases Bool.eq_false_or_eq_true (decide (s.estado = 4) &&
        decide (s.nombreArchivo.length > 0) &&
        eqIgnoreCase (trimChars name) s.nombreArchivo) with hb | hb
      · exfalso
        simp only [Bool.and_eq_true, decide_eq_true_eq] at hb
        exact hcon ⟨hb.1.1, List.length_pos.mp hb.1.2, hb.2⟩
      · exact hb
    simp only [processWebCommand, if_neg hd1, if_neg hd2, if_pos rfl, if_neg hne,
      hcond, Bool.false_eq_true, if_false]
    exact ⟨by trivial, by simp⟩
  · intro h3 hback ho hnom heq
    have h0 : ¬ (s.estado = 0) := by omega
    have h1 : ¬ (s.estado = 1) := by omega
    have h2 : ¬ (s.estado = 2) := by omega
    have hpos : 0 < s.nombreArchivo.length := List.length_pos.mpr hnom
    have hcond : (s.logFileOpen && decide (s.nombreArchivo.length > 0) &&
        eqIgnoreCase (trimChars raw) s.nombreArchivo) = true := by
      simp [ho, hpos, heq]
    simp only [consoleStep, if_neg h0, if_neg h1, if_neg h2, if_pos h3,
      if_neg hback, hcond, if_true]
    refine ⟨by trivial, ?_⟩
    intro n ok hmem
    simp at hmem
  · intro h3 hback hcon
    have h0 : ¬ (s.estado = 0) := by omega
    have h1 : ¬ (s.estado = 1) := by omega
    have h2 : ¬ (s.estado = 2) := by omega
    have hcond : (s.logFileOpen && decide (s.nombreArchivo.length > 0) &&
        eqIgnoreCase (trimChars raw) s.nombreArchivo) = false := by
      rcases Bool.eq_false_or_eq_true (s.logFileOpen &&
        decide (s.nombreArchivo.length > 0) &&
        eqIgnoreCase (trimChars raw) s.nombreArchivo) with hb | hb
      · exfalso
        simp only [Bool.and_eq_true, decide_eq_true_eq] at hb
        exact hcon ⟨hb.1.1, List.length_pos.mp hb.1.2, hb.2⟩
      · exact hb
    simp only [consoleStep, if_neg h0, if_neg h1, if_neg h2, if_pos h3,
      if_neg hback, hcond, Bool.false_eq_true, if_false]
    exact ⟨by trivial, by simp⟩


/-- Witness for C8: a web delete of a non-active file invokes the remove. -/
theorem claim_C8_witness :
    (processWebCommand envA (str "delete") (str "B.CSV") sActive).1 = sActive ∧
    Ev.sdRemove (trimChars (str "B.CSV")) envA.removeOk ∈
      (processWebCommand envA (str "delete") (str "B.CSV") sActive).2 :=
  (claim_C8_delete_busy envA (str "B.CSV") (str "x") sActive).2.1 (by decide) (by decide)

end Datalogger
